import Mathlib

/-!
Verification development for the image-story-generator backend: a shallow
embedding of the provider adapter layer (retry and error normalization,
asynchronous polling), the image preparation pipeline, and the search
result handling, together with theorems settling the specified properties.
-/

/-- Error values raised by the Python code. `apiError` mirrors the
`APIError(message, status_code, provider)` class from
`utils/error_handlers.py`; `requestTimeout` and `requestConnectionError`
mirror the `requests` transport exceptions; `retryError` mirrors the
`tenacity.RetryError` wrapper raised when the attempt budget is exhausted
(the default `reraise=False` configuration wraps the last attempt). -/
inductive PyExc where
  | apiError (message : String) (status : Nat) (provider : Option String)
  | requestTimeout
  | requestConnectionError
  | retryError (last : PyExc)
  deriving Repr, DecidableEq

/-- Result of running a tenacity-decorated callable: the final outcome,
the number of invocations of the body (= attempts), and the list of
backoff sleeps (in seconds) performed between attempts, in order. -/
structure RunResult (α : Type) where
  outcome : Except PyExc α
  attempts : Nat
  sleeps : List Nat
  deriving Repr

/-- Backoff of `wait_exponential(multiplier=1, min=2, max=10)`: after the
n-th failed attempt (1-based) the sleep is
`max(max(0, min), min(multiplier * exp_base ** (n - 1), max))` with the
default `exp_base = 2`. With `multiplier=1` and `min=2` the first two
sleeps are both clipped up to the minimum: 2 seconds, then 2 seconds. -/
def waitExponential (multiplier lo hi attemptNumber : Nat) : Nat :=
  max (max 0 lo) (min (multiplier * 2 ^ (attemptNumber - 1)) hi)

/-- Retry predicate of the default `@retry` configuration used by
`llm_service.py` and `image_gen_service.py`: with no `retry=` argument,
tenacity retries on any `Exception`. -/
def retryAnyException : PyExc → Bool := fun _ => true

/-- Retry predicate of `retry_if_exception_type(requests.exceptions.RequestException)`
used by `google_search.py`: only transport-level exceptions are retried;
an `APIError` is not a `RequestException` and is re-raised at once. -/
def retryRequestException : PyExc → Bool
  | .requestTimeout => true
  | .requestConnectionError => true
  | _ => false

/-- One step of the tenacity loop with `stop_after_attempt`:
`remaining` is the number of further attempts the stop condition still
allows after the current one; `attempt` is the 1-based attempt number
used by the wait strategy. On failure the retry predicate is consulted
first (false means the original exception is re-raised), then the stop
condition (met means a `RetryError` wrapping the last exception is
raised, mirroring `reraise=False`). -/
def tenacityFrom (pred : PyExc → Bool) (body : Nat → Except PyExc α) :
    Nat → Nat → RunResult α
  | attempt, 0 =>
    match body attempt with
    | .ok a => ⟨.ok a, 1, []⟩
    | .error e =>
      if pred e then ⟨.error (.retryError e), 1, []⟩ else ⟨.error e, 1, []⟩
  | attempt, r + 1 =>
    match body attempt with
    | .ok a => ⟨.ok a, 1, []⟩
    | .error e =>
      if pred e then
        let rest := tenacityFrom pred body (attempt + 1) r
        ⟨rest.outcome, rest.attempts + 1, waitExponential 1 2 10 attempt :: rest.sleeps⟩
      else ⟨.error e, 1, []⟩

/-- A full run of `@retry(stop=stop_after_attempt(3), wait=wait_exponential(multiplier=1, min=2, max=10))`:
at most 3 total attempts. -/
def tenacityRun (pred : PyExc → Bool) (body : Nat → Except PyExc α) : RunResult α :=
  tenacityFrom pred body 1 2

/-- Outcome of one outbound HTTP request: a transport timeout, a
transport-level connection failure, or a response of type ρ. -/
inductive Outcome (ρ : Type) where
  | timeout
  | connectionError
  | response (r : ρ)

/-- Provider HTTP response as consumed by `OpenAIService.generate_story`
and `AnthropicService.generate_story`: status code, raw body text, the
extractable provider error message (`response.json()['error']['message']`
when present), and the generated texts of the response candidates. -/
structure HttpResponse where
  status : Nat
  text : String
  errorMessage : Option String
  candidates : List String
  deriving Repr, DecidableEq

/-- Error classification and response mapping of
`OpenAIService.generate_story` (llm_service.py lines 157-166): 401 maps
to the invalid-key `APIError`, 429 to the rate-limit `APIError`, any
other non-200 to a generic `APIError` carrying the extracted provider
message (or the raw body), and a 200 response yields
`data['choices'][0]['message']['content']`; an empty choices list makes
the subscription fail, caught by the generic handler as a 500. -/
def openaiClassify (r : HttpResponse) : Except PyExc String :=
  if r.status = 401 then
    .error (.apiError "Invalid OpenAI API key" 401 (some "OpenAI"))
  else if r.status = 429 then
    .error (.apiError "OpenAI API rate limit exceeded" 429 (some "OpenAI"))
  else if r.status ≠ 200 then
    .error (.apiError ("OpenAI API error: " ++ r.errorMessage.getD r.text) r.status (some "OpenAI"))
  else
    match r.candidates with
    | [] => .error (.apiError "OpenAI request failed: list index out of range" 500 (some "OpenAI"))
    | s :: _ => .ok s

/-- One attempt of the body of `OpenAIService.generate_story`: the
outbound request is issued and a `requests.exceptions.Timeout` is caught
and converted to the 408 `APIError` before tenacity sees it; a
connection-level failure reaches the generic handler and becomes a 500
`APIError`. -/
def openaiBody (transport : Nat → Outcome HttpResponse) (attempt : Nat) : Except PyExc String :=
  match transport attempt with
  | .timeout => .error (.apiError "OpenAI API request timeout" 408 (some "OpenAI"))
  | .connectionError => .error (.apiError "OpenAI request failed: connection error" 500 (some "OpenAI"))
  | .response r => openaiClassify r

/-- The decorated `OpenAIService.generate_story` call: the body under the
default tenacity policy (retry on any exception, 3 attempts,
exponential wait 2..10, RetryError on exhaustion). -/
def openaiGenerateStoryRun (transport : Nat → Outcome HttpResponse) : RunResult String :=
  tenacityRun retryAnyException (openaiBody transport)

/-- A provider transport that answers HTTP 401 on every attempt. -/
def transport401 : Nat → Outcome HttpResponse :=
  fun _ => .response ⟨401, "unauthorized", none, []⟩

/-- C1: claimed, a generate-story call whose provider responds 401 raises
the auth APIError (status 401) immediately with zero additional retry
attempts, and no classified 4xx application error is ever retried. The
code instead retries the 401 `APIError`: the `@retry` decorator in
`llm_service.py` has no `retry=` argument, so tenacity retries on any
exception; three attempts are made with backoff sleeps of 2 and 2
seconds, and the surfaced exception is a `tenacity.RetryError` wrapping
the auth error, not the auth error itself. -/
theorem openai_401_is_retried_three_times :
    openaiGenerateStoryRun transport401 =
      ⟨.error (.retryError (.apiError "Invalid OpenAI API key" 401 (some "OpenAI"))), 3, [2, 2]⟩ := by
  rfl

/-- C2: on a transport that times out on every attempt, the call is
attempted exactly 3 times as claimed, but the backoff delays are 2s then
2s: `wait_exponential(multiplier=1, min=2, max=10)` clips the first two
waits up to the 2-second minimum, so they are not strictly increasing as
the claim requires; and the surfaced exception is a `tenacity.RetryError`
wrapping the final 408 `APIError`, not the 408 timeout APIError naming
the provider that the claim requires. -/
theorem openai_timeout_three_attempts_wrapped :
    openaiGenerateStoryRun (fun _ => .timeout) =
      ⟨.error (.retryError (.apiError "OpenAI API request timeout" 408 (some "OpenAI"))), 3, [2, 2]⟩ := by
  rfl

/-- Response to a Replicate submission request: HTTP status and body
text. On 200/201 the body carries the prediction id used for polling. -/
structure SubmitResponse where
  status : Nat
  text : String
  deriving Repr, DecidableEq

/-- Response to one Replicate poll (status fetch): the HTTP status of the
poll request itself, the prediction status string from the JSON body,
and the prediction output. -/
structure PollResponse where
  httpStatus : Nat
  predStatus : String
  output : List String
  deriving Repr, DecidableEq

/-- Environment of one decorated `ReplicateService.generate_image` call:
for each tenacity attempt, the submission response and the sequence of
poll responses (0-based poll index). -/
structure ReplicateEnv where
  submit : Nat → SubmitResponse
  poll : Nat → Nat → PollResponse

/-- The poll loop of `ReplicateService.generate_image`
(image_gen_service.py lines 219-241): up to `fuel` iterations, each one
sleeping 2 seconds and then fetching the prediction status. A poll whose
HTTP status is not 200 raises the status-check `APIError` carrying that
status; prediction status `succeeded` returns the output; `failed`
raises the generation-failed `APIError` (500); exhausting the loop
raises the generation-timeout `APIError` (408). The second component
counts the polls performed. -/
def replicatePollLoop (polls : Nat → PollResponse) :
    Nat → Nat → Except PyExc (List String) × Nat
  | _, 0 => (.error (.apiError "Image generation timeout" 408 (some "Replicate")), 0)
  | i, fuel + 1 =>
    let pr := polls i
    if pr.httpStatus ≠ 200 then
      (.error (.apiError "Failed to check prediction status" pr.httpStatus (some "Replicate")), 1)
    else if pr.predStatus = "succeeded" then
      (.ok pr.output, 1)
    else if pr.predStatus = "failed" then
      (.error (.apiError "Image generation failed" 500 (some "Replicate")), 1)
    else
      let rest := replicatePollLoop polls (i + 1) fuel
      (rest.1, rest.2 + 1)

/-- One attempt of the body of `ReplicateService.generate_image`: the
submission is classified (401, 429, then anything outside 200/201), and
on success the poll loop runs with a budget of 30 polls. -/
def replicateBody (env : ReplicateEnv) (attempt : Nat) : Except PyExc (List String) :=
  let s := env.submit attempt
  if s.status = 401 then
    .error (.apiError "Invalid Replicate API key" 401 (some "Replicate"))
  else if s.status = 429 then
    .error (.apiError "Replicate rate limit exceeded" 429 (some "Replicate"))
  else if s.status ≠ 200 ∧ s.status ≠ 201 then
    .error (.apiError ("Replicate error: " ++ s.text) s.status (some "Replicate"))
  else
    (replicatePollLoop (env.poll attempt) 0 30).1

/-- The decorated `ReplicateService.generate_image` call: the same
default tenacity policy as the other generation services (no `retry=`
argument, so any exception is retried); each retried attempt invokes the
whole body again, resubmitting the prediction. -/
def replicateGenerateImageRun (env : ReplicateEnv) : RunResult (List String) :=
  tenacityRun retryAnyException (replicateBody env)

/-- Environment whose submission succeeds and whose polls always report
HTTP 200 with the non-terminal prediction status `processing`. -/
def envProcessing : ReplicateEnv :=
  ⟨fun _ => ⟨201, "created"⟩, fun _ _ => ⟨200, "processing", []⟩⟩

/-- Environment whose submission succeeds and whose first poll reports
the terminal prediction status `succeeded` with one output URL. -/
def envSucceeded : ReplicateEnv :=
  ⟨fun _ => ⟨201, "created"⟩, fun _ _ => ⟨200, "succeeded", ["output-url"]⟩⟩

/-- Environment whose submission succeeds and whose first poll request
itself fails with HTTP 503. -/
def envPoll503 : ReplicateEnv :=
  ⟨fun _ => ⟨201, "created"⟩, fun _ _ => ⟨503, "starting", []⟩⟩

/-- C3: the poll loop itself behaves as claimed inside one attempt (30
polls when no terminal state is reached, then the 408 generation-timeout
APIError; an immediate return of the output on `succeeded`), but the
decorated call does not surface that error: the blanket retry re-runs
the whole body (resubmitting the prediction) for 3 attempts in total and
then raises a `tenacity.RetryError` wrapping the 408 APIError, so a
never-terminal prediction does not surface `GenerationTimeoutError` to
the caller as claimed. -/
theorem replicate_poll_loop_behavior :
    (replicatePollLoop (fun _ => ⟨200, "processing", []⟩) 0 30).2 = 30 ∧
    (replicatePollLoop (fun _ => ⟨200, "processing", []⟩) 0 30).1 =
      .error (.apiError "Image generation timeout" 408 (some "Replicate")) ∧
    replicateGenerateImageRun envSucceeded = ⟨.ok ["output-url"], 1, []⟩ ∧
    replicateGenerateImageRun envProcessing =
      ⟨.error (.retryError (.apiError "Image generation timeout" 408 (some "Replicate"))), 3, [2, 2]⟩ := by
  exact ⟨rfl, rfl, rfl, rfl⟩

/-- C4: a poll answered with HTTP 503 makes the body fail immediately
with the status-check APIError carrying 503 after a single poll, as
claimed; but the decorated call then retries the entire body twice more
under the blanket retry policy, resubmitting the prediction on each
attempt (3 submissions in total) and finally raising a
`tenacity.RetryError`, contradicting the claim that a failed poll is not
retried and does not cause resubmission. -/
theorem replicate_poll_http_error_behavior :
    replicateBody envPoll503 1 =
      .error (.apiError "Failed to check prediction status" 503 (some "Replicate")) ∧
    (replicatePollLoop (envPoll503.poll 1) 0 30).2 = 1 ∧
    replicateGenerateImageRun envPoll503 =
      ⟨.error (.retryError (.apiError "Failed to check prediction status" 503 (some "Replicate"))), 3, [2, 2]⟩ := by
  exact ⟨rfl, rfl, rfl⟩

/-- One Google Custom Search result item as read from `data['items']`:
`link` is mandatory; `image.thumbnailLink`, `title`, `image.width` and
`image.height` are read with defaults. -/
structure GoogleItem where
  link : String
  thumbnailLink : Option String
  title : Option String
  width : Option Nat
  height : Option Nat
  deriving Repr, DecidableEq

/-- One Bing image search result item as read from `data['value']`:
`contentUrl` and `thumbnailUrl` are mandatory, `name`, `width` and
`height` are read with defaults. -/
structure BingItem where
  contentUrl : String
  thumbnailUrl : String
  name : Option String
  width : Option Nat
  height : Option Nat
  deriving Repr, DecidableEq

/-- Image record returned by the search services. -/
structure SearchImage where
  url : String
  thumbnail : String
  title : String
  width : Option Nat
  height : Option Nat
  deriving Repr, DecidableEq

/-- Google search provider response: status, raw body text, and the
parsed `items` field (`none` when the key is absent from the payload). -/
structure GoogleSearchResponse where
  status : Nat
  text : String
  items : Option (List GoogleItem)
  deriving Repr, DecidableEq

/-- Bing search provider response: status, raw body text, and the parsed
`value` field (`none` when the key is absent from the payload). -/
structure BingSearchResponse where
  status : Nat
  text : String
  value : Option (List BingItem)
  deriving Repr, DecidableEq

/-- Mapping of one Google item (google_search.py lines 59-66). -/
def googleItemToImage (it : GoogleItem) : SearchImage :=
  ⟨it.link, it.thumbnailLink.getD it.link, it.title.getD "", it.width, it.height⟩

/-- Mapping of one Bing item (google_search.py lines 129-136). -/
def bingItemToImage (it : BingItem) : SearchImage :=
  ⟨it.contentUrl, it.thumbnailUrl, it.name.getD "", it.width, it.height⟩

/-- Error classification and response mapping of
`GoogleSearchService.search_images` (google_search.py lines 46-68): 401,
429, other non-200, then a missing `items` field yields the empty list
and a present one is mapped item by item. -/
def googleClassify (r : GoogleSearchResponse) : Except PyExc (List SearchImage) :=
  if r.status = 401 then
    .error (.apiError "Invalid Google API key" 401 (some "Google"))
  else if r.status = 429 then
    .error (.apiError "Google API quota exceeded" 429 (some "Google"))
  else if r.status ≠ 200 then
    .error (.apiError ("Google API error: " ++ r.text) r.status (some "Google"))
  else
    match r.items with
    | none => .ok []
    | some items => .ok (items.map googleItemToImage)

/-- Error classification and response mapping of
`BingSearchService.search_images` (google_search.py lines 116-138). -/
def bingClassify (r : BingSearchResponse) : Except PyExc (List SearchImage) :=
  if r.status = 401 then
    .error (.apiError "Invalid Bing API key" 401 (some "Bing"))
  else if r.status = 429 then
    .error (.apiError "Bing API quota exceeded" 429 (some "Bing"))
  else if r.status ≠ 200 then
    .error (.apiError ("Bing API error: " ++ r.text) r.status (some "Bing"))
  else
    match r.value with
    | none => .ok []
    | some items => .ok (items.map bingItemToImage)

/-- One attempt of the body of `GoogleSearchService.search_images`: a
transport timeout is caught and converted to the 408 APIError, any other
`RequestException` to a 500 APIError, before tenacity sees them. -/
def googleSearchBody (transport : Nat → Outcome GoogleSearchResponse) (attempt : Nat) :
    Except PyExc (List SearchImage) :=
  match transport attempt with
  | .timeout => .error (.apiError "Google API request timeout" 408 (some "Google"))
  | .connectionError => .error (.apiError "Google API request failed: connection error" 500 (some "Google"))
  | .response r => googleClassify r

/-- One attempt of the body of `BingSearchService.search_images`. -/
def bingSearchBody (transport : Nat → Outcome BingSearchResponse) (attempt : Nat) :
    Except PyExc (List SearchImage) :=
  match transport attempt with
  | .timeout => .error (.apiError "Bing API request timeout" 408 (some "Bing"))
  | .connectionError => .error (.apiError "Bing API request failed: connection error" 500 (some "Bing"))
  | .response r => bingClassify r

/-- The decorated `GoogleSearchService.search_images` call, whose retry
predicate is `retry_if_exception_type(RequestException)`. -/
def googleSearchRun (transport : Nat → Outcome GoogleSearchResponse) : RunResult (List SearchImage) :=
  tenacityRun retryRequestException (googleSearchBody transport)

/-- The decorated `BingSearchService.search_images` call. -/
def bingSearchRun (transport : Nat → Outcome BingSearchResponse) : RunResult (List SearchImage) :=
  tenacityRun retryRequestException (bingSearchBody transport)

/-- C9: a provider response with HTTP 200 whose payload lacks the result
field (Google `items`, Bing `value`) makes the search return the empty
result list on the first attempt, with no error raised. -/
theorem search_missing_result_field_empty (rg : GoogleSearchResponse) (rb : BingSearchResponse)
    (hg1 : rg.status = 200) (hg2 : rg.items = none)
    (hb1 : rb.status = 200) (hb2 : rb.value = none) :
    googleSearchRun (fun _ => .response rg) = ⟨.ok [], 1, []⟩ ∧
    bingSearchRun (fun _ => .response rb) = ⟨.ok [], 1, []⟩ := by
  constructor
  · simp [googleSearchRun, tenacityRun, tenacityFrom, googleSearchBody, googleClassify, hg1, hg2]
  · simp [bingSearchRun, tenacityRun, tenacityFrom, bingSearchBody, bingClassify, hb1, hb2]

/-- Witness for C9 at a concrete pair of responses. -/
theorem search_missing_result_field_empty_witness :
    googleSearchRun (fun _ => .response ⟨200, "ok", none⟩) = ⟨.ok [], 1, []⟩ ∧
    bingSearchRun (fun _ => .response ⟨200, "ok", none⟩) = ⟨.ok [], 1, []⟩ :=
  search_missing_result_field_empty ⟨200, "ok", none⟩ ⟨200, "ok", none⟩ rfl rfl rfl rfl

/-- Clamping of the requested result count performed by the route
`/api/search` (routes/image_search.py line 49): `min(int(...), 10)`. -/
def routeNumResults (requested : Int) : Int := min requested 10

/-- The `num` query parameter sent by
`GoogleSearchService.search_images` (google_search.py line 36):
`min(num_results, 10)`. -/
def googleNumParam (numResults : Int) : Int := min numResults 10

/-- The `count` query parameter sent by
`BingSearchService.search_images` (google_search.py line 104): the value
is passed through unchanged; the clamp for Bing lives in the route. -/
def bingCountParam (numResults : Int) : Int := numResults

/-- The result count that reaches the Google provider for a caller
requesting `requested` results through the route. -/
def googleNumSent (requested : Int) : Int := googleNumParam (routeNumResults requested)

/-- The result count that reaches the Bing provider for a caller
requesting `requested` results through the route. -/
def bingCountSent (requested : Int) : Int := bingCountParam (routeNumResults requested)

/-- C8: for every requested result count, the number-of-results parameter
sent to the provider (Google `num`, Bing `count`) is at most 10, and any
request above 10 is clamped to exactly 10 before the provider request is
issued. -/
theorem search_num_results_clamped (requested : Int) :
    googleNumSent requested ≤ 10 ∧ bingCountSent requested ≤ 10 ∧
    (10 < requested → googleNumSent requested = 10 ∧ bingCountSent requested = 10) := by
  simp only [googleNumSent, bingCountSent, googleNumParam, bingCountParam, routeNumResults]
  omega

/-- Witness for C8 at the requested count 50 from the specification
scenario. -/
theorem search_num_results_clamped_witness :
    googleNumSent 50 = 10 ∧ bingCountSent 50 = 10 :=
  (search_num_results_clamped 50).2.2 (by decide)

/-- Literal character-list match: the needle matches at the head of the
haystack. -/
def charsStartWith : List Char → List Char → Bool
  | [], _ => true
  | _ :: _, [] => false
  | a :: as, b :: bs => a == b && charsStartWith as bs

/-- Literal character-list containment at any position. -/
def charsContain (needle : List Char) : List Char → Bool
  | [] => needle.isEmpty
  | c :: cs => charsStartWith needle (c :: cs) || charsContain needle cs

/-- Substring containment on strings, mirroring the Python `in` operator
on the stringified JSON body. -/
def strContainsSub (pat s : String) : Bool := charsContain pat.data s.data

/-- Gemini provider response: status, raw body text, the stringified
parsed JSON (`str(response.json())`, the value the code scans for
`API_KEY_INVALID`), and the candidate texts. -/
structure GeminiResponse where
  status : Nat
  text : String
  jsonStr : String
  candidates : List String
  deriving Repr, DecidableEq

/-- Error classification and response mapping of
`GoogleGeminiService.generate_story` (llm_service.py lines 390-405): on
status 400 the stringified JSON is scanned for `API_KEY_INVALID` and the
error is reclassified as the 401 invalid-key APIError, otherwise a 400
APIError carrying the response text is raised; 429 and other non-200
statuses follow; a 200 response with no candidates raises the 500
no-response APIError, otherwise the first candidate text is returned. -/
def geminiClassify (r : GeminiResponse) : Except PyExc String :=
  if r.status = 400 then
    if strContainsSub "API_KEY_INVALID" r.jsonStr then
      .error (.apiError "Invalid Google AI API key" 401 (some "Google Gemini"))
    else
      .error (.apiError ("Google Gemini API error: " ++ r.text) 400 (some "Google Gemini"))
  else if r.status = 429 then
    .error (.apiError "Google Gemini API rate limit exceeded" 429 (some "Google Gemini"))
  else if r.status ≠ 200 then
    .error (.apiError ("Google Gemini API error: " ++ r.text) r.status (some "Google Gemini"))
  else
    match r.candidates with
    | [] => .error (.apiError "No response from Gemini" 500 (some "Google Gemini"))
    | s :: _ => .ok s

/-- One attempt of the body of `GoogleGeminiService.generate_story`. -/
def geminiBody (transport : Nat → Outcome GeminiResponse) (attempt : Nat) : Except PyExc String :=
  match transport attempt with
  | .timeout => .error (.apiError "Google Gemini API request timeout" 408 (some "Google Gemini"))
  | .connectionError => .error (.apiError "Google Gemini request failed: connection error" 500 (some "Google Gemini"))
  | .response r => geminiClassify r

/-- The decorated `GoogleGeminiService.generate_story` call, under the
same default tenacity policy as the other generation services. -/
def geminiGenerateStoryRun (transport : Nat → Outcome GeminiResponse) : RunResult String :=
  tenacityRun retryAnyException (geminiBody transport)

/-- A Gemini 400 response whose stringified JSON names API_KEY_INVALID. -/
def geminiResp400KeyInvalid : GeminiResponse :=
  ⟨400, "bad request body", "error status API_KEY_INVALID details", []⟩

/-- A Gemini 400 response without API_KEY_INVALID in its JSON. -/
def geminiResp400Other : GeminiResponse :=
  ⟨400, "bad request body", "error status INVALID_ARGUMENT details", []⟩

/-- C10: the classification of a Gemini 400 response matches the claim
(the body containing API_KEY_INVALID is reclassified as the 401
invalid-key APIError rather than 400; any other 400 becomes a 400
APIError carrying the response text), but the decorated call does not
fail with that error: the blanket retry re-raises a
`tenacity.RetryError` wrapping it after 3 attempts, so the call does not
surface the 401 auth error as claimed. -/
theorem gemini_400_key_invalid_classification :
    geminiClassify geminiResp400KeyInvalid =
      .error (.apiError "Invalid Google AI API key" 401 (some "Google Gemini")) ∧
    geminiClassify geminiResp400Other =
      .error (.apiError "Google Gemini API error: bad request body" 400 (some "Google Gemini")) ∧
    geminiGenerateStoryRun (fun _ => .response geminiResp400KeyInvalid) =
      ⟨.error (.retryError (.apiError "Invalid Google AI API key" 401 (some "Google Gemini"))), 3, [2, 2]⟩ := by
  exact ⟨rfl, rfl, rfl⟩

/-- A few-shot example as consumed by the services: the optional
`image_base64` field and the mandatory `story` field. -/
structure FewShotExample where
  imageB64 : Option String
  story : String
  deriving Repr, DecidableEq

/-- One content part of an OpenAI chat message. -/
inductive OpenAIPart where
  | text (s : String)
  | imageUrl (url : String)
  deriving Repr, DecidableEq

/-- Content of an OpenAI chat message: a list of parts for user turns,
a plain string for assistant turns. -/
inductive OpenAIContent where
  | parts (ps : List OpenAIPart)
  | plain (s : String)
  deriving Repr, DecidableEq

/-- An OpenAI chat message. -/
structure OpenAIMessage where
  role : String
  content : OpenAIContent
  deriving Repr, DecidableEq

/-- The user turn built for one few-shot example by
`OpenAIService.generate_story` (llm_service.py lines 103-116): the
instruction text, then the example image as a data URL when the
`image_base64` key is present. -/
def openaiExampleUserMsg (ex : FewShotExample) : OpenAIMessage :=
  ⟨"user", .parts ([.text "Generate a creative story based on this image."] ++
    (match ex.imageB64 with
     | some b => [.imageUrl ("data:image/jpeg;base64," ++ b)]
     | none => []))⟩

/-- The assistant turn built for one few-shot example: the example story
as plain content. -/
def openaiExampleAssistantMsg (ex : FewShotExample) : OpenAIMessage :=
  ⟨"assistant", .plain ex.story⟩

/-- The real request turn (llm_service.py lines 120-134): the
instruction text followed by every prepared request image, in input
order. The argument is the list of resized-and-transcoded base64 images. -/
def openaiRequestMsg (imageB64s : List String) : OpenAIMessage :=
  ⟨"user", .parts ([.text "Generate a creative story based on these images."] ++
    imageB64s.map (fun b => .imageUrl ("data:image/jpeg;base64," ++ b)))⟩

/-- The full message list built by `OpenAIService.generate_story`: the
loop over `few_shot_examples[:5]` appends a user/assistant pair per
example, then the request turn is appended. -/
def openaiMessages (fewShot : Option (List FewShotExample)) (imageB64s : List String) :
    List OpenAIMessage :=
  let base : List OpenAIMessage :=
    match fewShot with
    | none => []
    | some exs =>
      (exs.take 5).foldl
        (fun acc ex => acc ++ [openaiExampleUserMsg ex, openaiExampleAssistantMsg ex]) []
  base ++ [openaiRequestMsg imageB64s]

/-- One content part of an Anthropic message. -/
inductive AnthropicPart where
  | text (s : String)
  | imageBase64 (mediaType : String) (data : String)
  deriving Repr, DecidableEq

/-- Content of an Anthropic message. -/
inductive AnthropicContent where
  | parts (ps : List AnthropicPart)
  | plain (s : String)
  deriving Repr, DecidableEq

/-- An Anthropic message. -/
structure AnthropicMessage where
  role : String
  content : AnthropicContent
  deriving Repr, DecidableEq

/-- The user turn built for one few-shot example by
`AnthropicService.generate_story` (llm_service.py lines 212-226). -/
def anthropicExampleUserMsg (ex : FewShotExample) : AnthropicMessage :=
  ⟨"user", .parts ([.text "Generate a creative story based on this image."] ++
    (match ex.imageB64 with
     | some b => [.imageBase64 "image/jpeg" b]
     | none => []))⟩

/-- The assistant turn built for one few-shot example. -/
def anthropicExampleAssistantMsg (ex : FewShotExample) : AnthropicMessage :=
  ⟨"assistant", .plain ex.story⟩

/-- The real request turn (llm_service.py lines 230-246). -/
def anthropicRequestMsg (imageB64s : List String) : AnthropicMessage :=
  ⟨"user", .parts ([.text "Generate a creative story based on these images."] ++
    imageB64s.map (fun b => .imageBase64 "image/jpeg" b))⟩

/-- The full message list built by `AnthropicService.generate_story`. -/
def anthropicMessages (fewShot : Option (List FewShotExample)) (imageB64s : List String) :
    List AnthropicMessage :=
  let base : List AnthropicMessage :=
    match fewShot with
    | none => []
    | some exs =>
      (exs.take 5).foldl
        (fun acc ex => acc ++ [anthropicExampleUserMsg ex, anthropicExampleAssistantMsg ex]) []
  base ++ [anthropicRequestMsg imageB64s]

/-- One part of a Gemini content entry. -/
inductive GeminiPart where
  | text (s : String)
  | inlineData (mimeType : String) (data : String)
  deriving Repr, DecidableEq

/-- One Gemini content entry (role plus parts). -/
structure GeminiContent where
  role : String
  parts : List GeminiPart
  deriving Repr, DecidableEq

/-- The user entry built for one few-shot example by
`GoogleGeminiService.generate_story` (llm_service.py lines 328-340). -/
def geminiExampleUserContent (ex : FewShotExample) : GeminiContent :=
  ⟨"user", [.text "Generate a creative story based on this image."] ++
    (match ex.imageB64 with
     | some b => [.inlineData "image/jpeg" b]
     | none => [])⟩

/-- The model entry built for one few-shot example (role `model`, the
assistant-equivalent role in the Gemini wire format). -/
def geminiExampleModelContent (ex : FewShotExample) : GeminiContent :=
  ⟨"model", [.text ex.story]⟩

/-- The real request entry (llm_service.py lines 344-358). -/
def geminiRequestContent (imageB64s : List String) : GeminiContent :=
  ⟨"user", [.text "Generate a creative story based on these images."] ++
    imageB64s.map (fun b => .inlineData "image/jpeg" b)⟩

/-- The full contents list built by `GoogleGeminiService.generate_story`. -/
def geminiContents (fewShot : Option (List FewShotExample)) (imageB64s : List String) :
    List GeminiContent :=
  let base : List GeminiContent :=
    match fewShot with
    | none => []
    | some exs =>
      (exs.take 5).foldl
        (fun acc ex => acc ++ [geminiExampleUserContent ex, geminiExampleModelContent ex]) []
  base ++ [geminiRequestContent imageB64s]

/-- Appending a user/assistant pair per element in a left fold equals
the flattened pair encoding of the list. -/
theorem foldl_pair_append {α β : Type} (f g : α → β) (l : List α) (acc : List β) :
    l.foldl (fun a x => a ++ [f x, g x]) acc = acc ++ l.flatMap (fun x => [f x, g x]) := by
  induction l generalizing acc with
  | nil => simp
  | cons x xs ih => simp [ih, List.append_assoc]

/-- C5: for every supplied example list and every image list, each of the
three vision-to-text builders encodes exactly the first `min 5 n`
examples, in their original order, as alternating user/assistant (or
user/model for Gemini) prior-turn pairs placed before the real request
turn, and the number of encoded examples never exceeds 5. -/
theorem few_shot_examples_limited_to_five (exs : List FewShotExample) (imageB64s : List String) :
    openaiMessages (some exs) imageB64s =
      (exs.take 5).flatMap
        (fun ex => [openaiExampleUserMsg ex, openaiExampleAssistantMsg ex]) ++
      [openaiRequestMsg imageB64s] ∧
    anthropicMessages (some exs) imageB64s =
      (exs.take 5).flatMap
        (fun ex => [anthropicExampleUserMsg ex, anthropicExampleAssistantMsg ex]) ++
      [anthropicRequestMsg imageB64s] ∧
    geminiContents (some exs) imageB64s =
      (exs.take 5).flatMap
        (fun ex => [geminiExampleUserContent ex, geminiExampleModelContent ex]) ++
      [geminiRequestContent imageB64s] ∧
    (exs.take 5).length ≤ 5 := by
  refine ⟨?_, ?_, ?_, ?_⟩
  · simp [openaiMessages, foldl_pair_append]
  · simp [anthropicMessages, foldl_pair_append]
  · simp [geminiContents, foldl_pair_append]
  · simp [Nat.min_le_left]

/-- One raster pixel with channels in 0..255; for modes without an alpha
channel the alpha is 255, for palette images the palette lookup has
already been applied. -/
structure Pixel where
  r : Nat
  g : Nat
  b : Nat
  a : Nat
  deriving Repr, DecidableEq

/-- Pixel modes distinguished by `ImageProcessor.image_to_base64`. -/
inductive PixelMode where
  | rgb
  | rgba
  | la
  | p
  | l
  deriving Repr, DecidableEq

/-- A decoded raster image: its mode and its pixel plane (coordinates to
pixel values, in the RGBA view). -/
structure RasterImage where
  mode : PixelMode
  px : Nat × Nat → Pixel

/-- Blend of one channel when pasting a source over a background through
an 8-bit alpha mask: the alpha-weighted average of background and
source, rounded to nearest. -/
def blendChannel (bg fg a : Nat) : Nat := (bg * (255 - a) + fg * a + 127) / 255

/-- Compositing of one source pixel onto the opaque white background, as
performed by pasting the image onto `Image.new('RGB', size, (255, 255, 255))`
with its own alpha channel as the mask: the result carries no alpha. -/
def flattenPixelOnWhite (src : Pixel) : Pixel :=
  ⟨blendChannel 255 src.r src.a, blendChannel 255 src.g src.a, blendChannel 255 src.b src.a, 255⟩

/-- ASCII uppercase of one character, as applied by the Python `upper`
method on the format names used here. -/
def charUpper (c : Char) : Char :=
  if 'a' ≤ c ∧ c ≤ 'z' then Char.ofNat (c.toNat - 32) else c

/-- ASCII uppercase of a string (`format.upper()`). -/
def strUpper (s : String) : String := ⟨s.data.map charUpper⟩

/-- The raster transformation of `ImageProcessor.image_to_base64`
(llm_service.py lines 20-35) before encoding: when the target format is
JPEG and the mode is RGBA, LA or P, the image is pasted onto a white RGB
background using its alpha as the mask (a P image is first converted to
RGBA, which the RGBA pixel view already reflects); any other image is
encoded unchanged. -/
def imageToBase64Raster (img : RasterImage) (format : String) : RasterImage :=
  if strUpper format = "JPEG" ∧
      (img.mode = .rgba ∨ img.mode = .la ∨ img.mode = .p) then
    ⟨.rgb, fun c => flattenPixelOnWhite (img.px c)⟩
  else img

/-- C7: for every image whose mode has an alpha or palette channel
(RGBA, LA or P), the raster encoded for the JPEG transport form is an
RGB image (no alpha channel), and every fully transparent source pixel
comes out as opaque white, so dropped alpha never corrupts formerly
transparent regions. -/
theorem jpeg_flatten_transparent_to_white (img : RasterImage)
    (hmode : img.mode = .rgba ∨ img.mode = .la ∨ img.mode = .p) :
    (imageToBase64Raster img "JPEG").mode = .rgb ∧
    ∀ c, (img.px c).a = 0 →
      (imageToBase64Raster img "JPEG").px c = ⟨255, 255, 255, 255⟩ := by
  have hfmt : strUpper "JPEG" = "JPEG" := by decide
  constructor
  · simp [imageToBase64Raster, hfmt, hmode]
  · intro c hc
    simp [imageToBase64Raster, hfmt, hmode, flattenPixelOnWhite, blendChannel, hc]

/-- A fully transparent one-colour RGBA test image. -/
def transparentImg : RasterImage :=
  ⟨.rgba, fun _ => ⟨12, 34, 56, 0⟩⟩

/-- Witness for C7 on a concrete fully transparent RGBA image. -/
theorem jpeg_flatten_transparent_to_white_witness :
    (imageToBase64Raster transparentImg "JPEG").mode = .rgb ∧
    ∀ c, (transparentImg.px c).a = 0 →
      (imageToBase64Raster transparentImg "JPEG").px c = ⟨255, 255, 255, 255⟩ :=
  jpeg_flatten_transparent_to_white transparentImg (Or.inl rfl)

/-- Ceiling division on naturals, the value of `math.ceil(a / b)` for
nonnegative integer inputs. -/
def ceilDiv (a b : Nat) : Nat := (a + b - 1) / b

/-- Ceiling division is bounded by any quotient whose product covers the
dividend. -/
theorem ceilDiv_le {a b c : Nat} (hb : 0 < b) (hac : a ≤ c * b) : ceilDiv a b ≤ c := by
  have h1 : (a + b - 1) / b < c + 1 := by
    rw [Nat.div_lt_iff_lt_mul hb]
    have h2 : (c + 1) * b = c * b + b := by ring
    omega
  unfold ceilDiv
  omega

/-- Ceiling division rounds up: the product covers the dividend. -/
theorem le_ceilDiv_mul {a b : Nat} (hb : 0 < b) : a ≤ ceilDiv a b * b := by
  unfold ceilDiv
  have hdm := Nat.div_add_mod (a + b - 1) b
  have hlt : (a + b - 1) % b < b := Nat.mod_lt _ hb
  have hcomm : b * ((a + b - 1) / b) = (a + b - 1) / b * b := Nat.mul_comm _ _
  omega

/-- The choice of `round_aspect` in the branch of `PIL.Image.thumbnail`
where the height is the driving dimension: the new width is the rounding
of `m * w / h` (with `m` the target height) to whichever of floor and
ceiling makes the resulting aspect ratio closest to the original (floor
wins ties, mirroring Python min), clamped below by 1. The comparison
`abs(aspect - floor / m) <= abs(aspect - ceil / m)` is cross-multiplied
into exact natural arithmetic. -/
def roundAspectX (m w h : Nat) : Nat :=
  max (if m * w - m * w / h * h ≤ ceilDiv (m * w) h * h - m * w
       then m * w / h
       else ceilDiv (m * w) h) 1

/-- The choice of `round_aspect` in the branch of `PIL.Image.thumbnail`
where the width is the driving dimension: the new height is the rounding
of `m * h / w` (with `m` the target width); the key maps 0 to 0, so a
floor of 0 always wins, and otherwise
`abs(aspect - m / floor) <= abs(aspect - m / ceil)` is cross-multiplied
into exact natural arithmetic. -/
def roundAspectY (m w h : Nat) : Nat :=
  max (if m * h / w = 0 then 0
       else if (m * h - m * h / w * w) * ceilDiv (m * h) w ≤
               (ceilDiv (m * h) w * w - m * h) * (m * h / w)
       then m * h / w
       else ceilDiv (m * h) w) 1

/-- `PIL.Image.thumbnail((mw, mh))` on an image of size w by h: returns
unchanged when both bounds already cover the image, otherwise keeps the
driving dimension at its bound and rounds the other to preserve the
aspect ratio. The branch `x / y >= aspect` is `mh * w <= mw * h` in
exact arithmetic. -/
def thumbnail (mw mh w h : Nat) : Nat × Nat :=
  if w ≤ mw ∧ h ≤ mh then (w, h)
  else if mh * w ≤ mw * h then (roundAspectX mh w h, mh)
  else (mw, roundAspectY mw w h)

/-- `ImageProcessor.resize_image` (llm_service.py lines 13-18) on the
dimensions of an image: `thumbnail((2048, 2048))` is applied only when a
dimension exceeds the default bound, otherwise the image is returned
untouched. -/
def resize_image (w h : Nat) : Nat × Nat :=
  if 2048 < w ∨ 2048 < h then thumbnail 2048 2048 w h else (w, h)

/-- Bounds for the clamped rounding `max n 1`: whenever the candidate n
is itself bounded by m and its product sits within one denominator of
the ideal value, so does the clamped result. -/
theorem maxOneBounds {n m w h : Nat} (hn_le : n ≤ m) (hm : 1 ≤ m)
    (hlow : n * h ≤ m * w + h) (hhigh : m * w ≤ n * h + h) :
    max n 1 ≤ m ∧ max n 1 * h ≤ m * w + h ∧ m * w ≤ max n 1 * h + h := by
  rcases Nat.eq_zero_or_pos n with h0 | h1
  · subst h0
    have h01 : max 0 1 = 1 := rfl
    rw [h01, Nat.one_mul]
    have h2 : m * w ≤ h := by simpa using hhigh
    exact ⟨hm, Nat.le_add_left _ _, by omega⟩
  · rw [Nat.max_eq_left h1]
    exact ⟨hn_le, hlow, hhigh⟩

/-- The rounded width of the height-driven thumbnail branch stays within
the bound and preserves the aspect ratio within one rounding unit. -/
theorem roundAspectX_bounds (m w h : Nat) (hh : 0 < h) (hwh : w ≤ h) (hm : 1 ≤ m) :
    roundAspectX m w h ≤ m ∧
    roundAspectX m w h * h ≤ m * w + h ∧ m * w ≤ roundAspectX m w h * h + h := by
  have hmul : m * w ≤ m * h := Nat.mul_le_mul (Nat.le_refl m) hwh
  have hfl_le : m * w / h ≤ m := by
    rw [Nat.div_le_iff_le_mul_add_pred hh]
    have h2 : m * h = h * m := Nat.mul_comm m h
    omega
  have hce_le : ceilDiv (m * w) h ≤ m := ceilDiv_le hh (by
    have h2 : m * h = h * m := Nat.mul_comm m h
    omega)
  have hfl_low : m * w / h * h ≤ m * w := Nat.div_mul_le_self _ _
  have hfl_high : m * w ≤ m * w / h * h + h := by
    have hdm := Nat.div_add_mod (m * w) h
    have hmod := Nat.mod_lt (m * w) hh
    have hcomm : h * (m * w / h) = m * w / h * h := Nat.mul_comm _ _
    omega
  have hce_low : ceilDiv (m * w) h * h ≤ m * w + h := by
    unfold ceilDiv
    have := Nat.div_mul_le_self (m * w + h - 1) h
    omega
  have hce_high : m * w ≤ ceilDiv (m * w) h * h + h :=
    Nat.le_trans (le_ceilDiv_mul hh) (Nat.le_add_right _ _)
  unfold roundAspectX
  split_ifs with hif
  · exact maxOneBounds hfl_le hm (Nat.le_trans hfl_low (Nat.le_add_right _ _)) hfl_high
  · exact maxOneBounds hce_le hm hce_low hce_high

/-- The rounded height of the width-driven thumbnail branch stays within
the bound and preserves the aspect ratio within one rounding unit. -/
theorem roundAspectY_bounds (m w h : Nat) (hw : 0 < w) (hhw : h ≤ w) (hm : 1 ≤ m) :
    roundAspectY m w h ≤ m ∧
    roundAspectY m w h * w ≤ m * h + w ∧ m * h ≤ roundAspectY m w h * w + w := by
  have hmul : m * h ≤ m * w := Nat.mul_le_mul (Nat.le_refl m) hhw
  have hfl_le : m * h / w ≤ m := by
    rw [Nat.div_le_iff_le_mul_add_pred hw]
    have h2 : m * w = w * m := Nat.mul_comm m w
    omega
  have hce_le : ceilDiv (m * h) w ≤ m := ceilDiv_le hw (by
    have h2 : m * w = w * m := Nat.mul_comm m w
    omega)
  have hfl_low : m * h / w * w ≤ m * h := Nat.div_mul_le_self _ _
  have hfl_high : m * h ≤ m * h / w * w + w := by
    have hdm := Nat.div_add_mod (m * h) w
    have hmod := Nat.mod_lt (m * h) hw
    have hcomm : w * (m * h / w) = m * h / w * w := Nat.mul_comm _ _
    omega
  have hce_low : ceilDiv (m * h) w * w ≤ m * h + w := by
    unfold ceilDiv
    have := Nat.div_mul_le_self (m * h + w - 1) w
    omega
  have hce_high : m * h ≤ ceilDiv (m * h) w * w + w :=
    Nat.le_trans (le_ceilDiv_mul hw) (Nat.le_add_right _ _)
  unfold roundAspectY
  split_ifs with h0 hif
  · have hz : m * h < w := by
      have hdm := Nat.div_add_mod (m * h) w
      have hmod := Nat.mod_lt (m * h) hw
      rw [h0, Nat.mul_zero] at hdm
      omega
    exact maxOneBounds (Nat.zero_le m) hm (by omega) (by omega)
  · exact maxOneBounds hfl_le hm (Nat.le_trans hfl_low (Nat.le_add_right _ _)) hfl_high
  · exact maxOneBounds hce_le hm hce_low hce_high

/-- Aspect-ratio preservation within rounding: the output pair differs
from the exact proportional pair by at most one rounding unit of the
larger input dimension, in cross-multiplied form. -/
def aspectClose (w h : Nat) (p : Nat × Nat) : Prop :=
  p.1 * h ≤ p.2 * w + max w h ∧ p.2 * w ≤ p.1 * h + max w h

/-- C6: an image whose dimensions are both within the (2048, 2048)
bounds is returned unchanged by resize; otherwise the output is
downsized so that its larger dimension equals the bound, both output
dimensions are within the bounds, and the aspect ratio is preserved
within rounding. -/
theorem resize_image_correct (w h : Nat) :
    (w ≤ 2048 ∧ h ≤ 2048 → resize_image w h = (w, h)) ∧
    (¬(w ≤ 2048 ∧ h ≤ 2048) →
      max (resize_image w h).1 (resize_image w h).2 = 2048 ∧
      (resize_image w h).1 ≤ 2048 ∧ (resize_image w h).2 ≤ 2048 ∧
      aspectClose w h (resize_image w h)) := by
  constructor
  · intro hin
    unfold resize_image
    have hcond : ¬(2048 < w ∨ 2048 < h) := by omega
    rw [if_neg hcond]
  · intro hout
    unfold resize_image
    rw [if_pos (by omega)]
    unfold thumbnail
    rw [if_neg (by omega)]
    by_cases hbr : 2048 * w ≤ 2048 * h
    · rw [if_pos hbr]
      have hwh : w ≤ h := by omega
      have hh : 0 < h := by omega
      obtain ⟨b1, b2, b3⟩ := roundAspectX_bounds 2048 w h hh hwh (by norm_num)
      refine ⟨Nat.max_eq_right b1, b1, Nat.le_refl _, ?_, ?_⟩
      · show roundAspectX 2048 w h * h ≤ 2048 * w + max w h
        rw [Nat.max_eq_right hwh]
        exact b2
      · show 2048 * w ≤ roundAspectX 2048 w h * h + max w h
        rw [Nat.max_eq_right hwh]
        exact b3
    · rw [if_neg hbr]
      have hhw : h ≤ w := by omega
      have hw : 0 < w := by omega
      obtain ⟨b1, b2, b3⟩ := roundAspectY_bounds 2048 w h hw hhw (by norm_num)
      refine ⟨Nat.max_eq_left b1, Nat.le_refl _, b1, ?_, ?_⟩
      · show 2048 * h ≤ roundAspectY 2048 w h * w + max w h
        rw [Nat.max_eq_left hhw]
        exact b3
      · show roundAspectY 2048 w h * w ≤ 2048 * h + max w h
        rw [Nat.max_eq_left hhw]
        exact b2

/-- Witness for C6: a within-bounds image is untouched, and a 4096 by
1024 image is downsized with its larger dimension at the bound. -/
theorem resize_image_correct_witness :
    resize_image 1600 900 = (1600, 900) ∧
    (max (resize_image 4096 1024).1 (resize_image 4096 1024).2 = 2048 ∧
     (resize_image 4096 1024).1 ≤ 2048 ∧ (resize_image 4096 1024).2 ≤ 2048 ∧
     aspectClose 4096 1024 (resize_image 4096 1024)) :=
  ⟨(resize_image_correct 1600 900).1 (by decide),
   (resize_image_correct 4096 1024).2 (by decide)⟩
